import Mathlib

/-!
Shallow embedding of the Employee Management System record store
(`src/app.py` and `src/employee_management_system.py`).

The persisted state is a single JSON file.  We model the file as a
`FileState`: either the file is absent, or it is present but does not
parse as JSON, or it is present and holds a well-formed JSON array of
employee records.  Field values are modeled by a flat JSON value type
`JVal` (the data model uses string ids/names/departments and a numeric
salary; numbers are modeled by `Int`, which suffices for every claim,
none of which depends on float arithmetic).

Each Python method is translated into a pure Lean function.  Methods
that may touch the file thread the `FileState` explicitly and return
the new state; write success/failure of the OS (`_save_data`'s
`try/except`) is an input `w : Bool` of the operations that write.
-/

set_option autoImplicit false

/-- A flat JSON value, as used for the fields of an employee record and
for the fields of a POST request body. -/
inductive JVal where
  | jnull
  | jbool (b : Bool)
  | jnum (n : Int)
  | jstr (s : String)
  deriving DecidableEq, Repr

/-- An employee record: a JSON object with keys `id`, `name`,
`department`, `salary` (spec §3; `Employee.get_details` in
`src/employee_management_system.py`). -/
structure Rec where
  id : JVal
  name : JVal
  department : JVal
  salary : JVal
  deriving DecidableEq, Repr

/-- The state of the backing JSON file. -/
inductive FileState where
  /-- The file does not exist (`os.path.exists` is false; reading raises
  `FileNotFoundError`). -/
  | missing
  /-- The file exists but its content is not valid JSON (reading raises
  `json.JSONDecodeError`). -/
  | corrupt
  /-- The file exists and parses as a JSON array of records. -/
  | stored (recs : List Rec)
  deriving DecidableEq, Repr

/-- Errors the body of `_load_data`'s `try` block can raise. -/
inductive LoadErr where
  | fileNotFound
  | jsonDecode
  deriving DecidableEq, Repr

/-- The `try` body of `_load_data`: `open(path, 'r')` followed by
`json.load(file)`.  A missing file raises `FileNotFoundError`; a
present-but-malformed file raises `json.JSONDecodeError`; otherwise the
parsed list is returned. -/
def load_data_try : FileState → Except LoadErr (List Rec)
  | .missing => .error .fileNotFound
  | .corrupt => .error .jsonDecode
  | .stored l => .ok l

/-- `EmployeeManagementSystem._load_data` (identical in both source
files): the `try` body, with both exception kinds caught and turned
into `[]`. -/
def load_data (fs : FileState) : List Rec :=
  match load_data_try fs with
  | .ok l => l
  | .error _ => []

/-- `EmployeeManagementSystem._save_data` (both source files): opens the
file for writing and dumps `data`, overwriting prior contents; returns
`True` on success and `False` if the write raises (`w` is whether the
OS write succeeds; on failure the state is left as it was).  The
interactive path additionally prints the error to the console; that
side effect is not part of the return value and is not modeled. -/
def save_data (w : Bool) (fs : FileState) (data : List Rec) : Bool × FileState :=
  if w then (true, .stored data) else (false, fs)

/-- `EmployeeManagementSystem.__init__` (both source files): if the
backing file does not exist, create it containing an empty JSON array;
otherwise leave it untouched. -/
def initStore (fs : FileState) : FileState :=
  match fs with
  | .missing => .stored []
  | fs => fs

/-- `EmployeeManagementSystem.add_employee` in `src/app.py`: load,
linear duplicate-id scan, append, save; returns the pair
`(success flag, message)` together with the resulting file state. -/
def app_add_employee (w : Bool) (fs : FileState) (e : Rec) :
    (Bool × String) × FileState :=
  let all_employees := load_data fs
  if all_employees.any (fun employee => employee.id == e.id) then
    ((false, "Employee ID already exists"), fs)
  else
    match save_data w fs (all_employees ++ [e]) with
    | (true, fs2) => ((true, "Employee added successfully"), fs2)
    | (false, fs2) => ((false, "Error saving employee"), fs2)

/-- `EmployeeManagementSystem.add_employee` in
`src/employee_management_system.py`: same load / duplicate scan /
append / save, but the return value is a bare boolean (`False` on a
duplicate id, otherwise the result of `_save_data`); the duplicate
message is only printed to the console. -/
def ems_add_employee (w : Bool) (fs : FileState) (e : Rec) :
    Bool × FileState :=
  let all_employees := load_data fs
  if all_employees.any (fun employee => employee.id == e.id) then
    (false, fs)
  else
    save_data w fs (all_employees ++ [e])

/-- `EmployeeManagementSystem.view_all_employees` (both source files):
returns `_load_data()`; the file is opened for reading only, so the
file state is returned unchanged. -/
def view_all_employees (fs : FileState) : List Rec × FileState :=
  (load_data fs, fs)

/-- `EmployeeManagementSystem.search_employee` (both source files):
loads all records and returns the first whose `id` equals `emp_id`,
else `None`; read-only, so the file state is returned unchanged. -/
def search_employee (fs : FileState) (emp_id : JVal) :
    Option Rec × FileState :=
  ((load_data fs).find? (fun employee => employee.id == emp_id), fs)

/-- Python truthiness of a `JVal`, as tested by
`not employee_data[field]` in the POST route of `src/app.py`:
`None`, `False`, `0` and `""` are falsy. -/
def truthy : JVal → Bool
  | .jnull => false
  | .jbool b => b
  | .jnum n => n != 0
  | .jstr s => s != ""

/-- A POST `/api/employees` request body: a JSON object in which each of
the four required keys may be present (with some value) or absent. -/
structure PostBody where
  id : Option JVal
  name : Option JVal
  department : Option JVal
  salary : Option JVal
  deriving DecidableEq, Repr

/-- The per-field validation of the POST route in `src/app.py`:
`field not in employee_data or not employee_data[field]` fails exactly
when the field is absent or its value is falsy. -/
def fieldOk : Option JVal → Bool
  | none => false
  | some v => truthy v

/-- An HTTP response of the POST `/api/employees` route in
`src/app.py`: 201 with a message object, or 400 with an error object. -/
inductive ApiResp where
  | created (message : String)
  | badRequest (error : String)
  deriving DecidableEq, Repr

/-- The HTTP status code of a response. -/
def ApiResp.status : ApiResp → Nat
  | .created _ => 201
  | .badRequest _ => 400

/-- Whether the response body is an error object. -/
def ApiResp.isError : ApiResp → Bool
  | .created _ => false
  | .badRequest _ => true

/-- The POST `/api/employees` route handler `add_employee` in
`src/app.py`: validates the four required fields in order (absent or
falsy value gives 400 with an error), then calls
`system.add_employee`; a successful add gives 201 with the message,
a failed one gives 400 with the message as error. -/
def post_add_employee (w : Bool) (fs : FileState) (body : PostBody) :
    ApiResp × FileState :=
  if !(fieldOk body.id) then
    (.badRequest "Missing required field: id", fs)
  else if !(fieldOk body.name) then
    (.badRequest "Missing required field: name", fs)
  else if !(fieldOk body.department) then
    (.badRequest "Missing required field: department", fs)
  else if !(fieldOk body.salary) then
    (.badRequest "Missing required field: salary", fs)
  else
    let e : Rec := ⟨body.id.getD .jnull, body.name.getD .jnull,
                    body.department.getD .jnull, body.salary.getD .jnull⟩
    match app_add_employee w fs e with
    | ((true, message), fs2) => (.created message, fs2)
    | ((false, message), fs2) => (.badRequest message, fs2)

/-- The dynamically-typed shape of a Python return value of the two
`add_employee` methods: either a `(bool, str)` tuple or a bare bool. -/
inductive PyRet where
  | pair (ok : Bool) (msg : String)
  | flag (ok : Bool)
  deriving DecidableEq, Repr

/-- Whether a returned Python value is a `(flag, message)` tuple. -/
def PyRet.isPair : PyRet → Bool
  | .pair _ _ => true
  | .flag _ => false

/-- The value returned by `add_employee` in `src/app.py`: always a
`(success flag, message)` tuple. -/
def app_add_ret (w : Bool) (fs : FileState) (e : Rec) : PyRet :=
  .pair (app_add_employee w fs e).1.1 (app_add_employee w fs e).1.2

/-- The value returned by `add_employee` in
`src/employee_management_system.py`: always a bare boolean. -/
def ems_add_ret (w : Bool) (fs : FileState) (e : Rec) : PyRet :=
  .flag (ems_add_employee w fs e).1

/-- Serialization of one field value, as `json.dump` renders it
(string fields of the data model contain no characters needing
escapes, so plain quoting is faithful here). -/
def JVal.dumps : JVal → String
  | .jnull => "null"
  | .jbool true => "true"
  | .jbool false => "false"
  | .jnum n => toString n
  | .jstr s => "\"" ++ s ++ "\""

/-- The key/value entries of a record object, in the key order of the
data model. -/
def recEntries (r : Rec) : List (String × JVal) :=
  [("id", r.id), ("name", r.name), ("department", r.department), ("salary", r.salary)]

/-- One record object rendered compact, Python default separators. -/
def dumpsObjCompact (r : Rec) : String :=
  "\x7b" ++
    String.intercalate ", "
      ((recEntries r).map (fun p => "\"" ++ p.1 ++ "\": " ++ p.2.dumps)) ++
  "\x7d"

/-- One record object rendered with indentation `pad` (outer) and
`pad2` (inner), as `json.dump` with an `indent` argument renders it. -/
def dumpsObjIndent (pad pad2 : String) (r : Rec) : String :=
  pad ++ "\x7b\n" ++
    String.intercalate ",\n"
      ((recEntries r).map (fun p => pad2 ++ "\"" ++ p.1 ++ "\": " ++ p.2.dumps)) ++
  "\n" ++ pad ++ "\x7d"

/-- Model of `json.dump(data, file)` / `json.dump(data, file, indent=n)`
for a list of record objects: `indent = none` gives the compact
single-line form, `indent = some n` the pretty-printed multi-line form
with `n`-space indentation. -/
def json_dumps (data : List Rec) (indent : Option Nat) : String :=
  match indent with
  | none => "[" ++ String.intercalate ", " (data.map dumpsObjCompact) ++ "]"
  | some n =>
    match data with
    | [] => "[]"
    | _ =>
      let pad := String.mk (List.replicate n ' ')
      "[\n" ++
        String.intercalate ",\n" (data.map (dumpsObjIndent pad (pad ++ pad))) ++
      "\n]"

/-- The file text written by `_save_data` in `src/app.py` (line 28):
`json.dump(data, file, indent=4)`. -/
def app_save_serialized (data : List Rec) : String :=
  json_dumps data (some 4)

/-- The file text written by `_save_data` in
`src/employee_management_system.py` (line 112):
`json.dump(data, file, indent=4)`. -/
def ems_save_serialized (data : List Rec) : String :=
  json_dumps data (some 4)

/-- Rendering claimed by the spec for the interactive-program path:
compact, no indentation (this definition follows the spec wording, for
comparison with `ems_save_serialized`, which follows the source). -/
def spec_compact_serialized (data : List Rec) : String :=
  json_dumps data none

/-- Runs a sequence of adds through `add_employee` of `src/app.py`
(with succeeding writes), collecting the success flags in order
together with the final file state. -/
def runAdds : FileState → List Rec → List Bool × FileState
  | fs, [] => ([], fs)
  | fs, r :: rs =>
    let step := app_add_employee true fs r
    let rest := runAdds step.2 rs
    (step.1.1 :: rest.1, rest.2)

/-! ### Helper lemmas -/

theorem load_data_stored (l : List Rec) : load_data (.stored l) = l := rfl

/-- A successful `add_employee` (app path) implies: the write succeeded,
the id was not already present, and the result is the success pair with
the record appended at the end of the store. -/
theorem app_add_success_eq (w : Bool) (fs : FileState) (r : Rec)
    (h : (app_add_employee w fs r).1.1 = true) :
    w = true ∧ (load_data fs).any (fun employee => employee.id == r.id) = false ∧
      app_add_employee w fs r =
        ((true, "Employee added successfully"), .stored (load_data fs ++ [r])) := by
  by_cases hd : (load_data fs).any (fun employee => employee.id == r.id) = true
  · exfalso
    simp [app_add_employee, hd] at h
  · simp only [Bool.not_eq_true] at hd
    cases w with
    | false =>
      exfalso
      simp [app_add_employee, hd, save_data] at h
    | true =>
      exact ⟨rfl, hd, by simp [app_add_employee, hd, save_data]⟩

/-- When the id is already present, `add_employee` (app path) returns the
duplicate-id failure pair and leaves the file state unchanged. -/
theorem app_add_duplicate_eq (w : Bool) (fs : FileState) (r : Rec)
    (h : (load_data fs).any (fun employee => employee.id == r.id) = true) :
    app_add_employee w fs r = ((false, "Employee ID already exists"), fs) := by
  simp [app_add_employee, h]

/-- When the id is already present, `add_employee` (interactive path)
returns `False` and leaves the file state unchanged. -/
theorem ems_add_duplicate_eq (w : Bool) (fs : FileState) (r : Rec)
    (h : (load_data fs).any (fun employee => employee.id == r.id) = true) :
    ems_add_employee w fs r = (false, fs) := by
  simp [ems_add_employee, h]

/-! ### Claim theorems -/

/-- C1: for every store state and record whose id already occurs in the
store, Add returns the duplicate-id failure and leaves the store
unchanged (in both implementation paths); and after a successful Add of
a record `r`, a second Add of any record with the same id fails, leaves
the store unchanged, and the store contains exactly one record with
that id, namely `r`. -/
theorem add_duplicate_id_rejected (w w' : Bool) (fs : FileState) (r r' : Rec)
    (hsucc : (app_add_employee w fs r).1.1 = true) (hid : r'.id = r.id) :
    (∀ (u : Bool) (s : FileState) (q : Rec),
        (load_data s).any (fun employee => employee.id == q.id) = true →
          app_add_employee u s q = ((false, "Employee ID already exists"), s) ∧
          ems_add_employee u s q = (false, s)) ∧
    app_add_employee w' (app_add_employee w fs r).2 r' =
      ((false, "Employee ID already exists"), (app_add_employee w fs r).2) ∧
    (load_data (app_add_employee w fs r).2).filter
        (fun employee => employee.id == r.id) = [r] := by
  obtain ⟨hw, hfresh, heq⟩ := app_add_success_eq w fs r hsucc
  have hdup : (load_data (app_add_employee w fs r).2).any
      (fun employee => employee.id == r'.id) = true := by
    rw [heq]
    simp [load_data_stored, hid]
  refine ⟨fun u s q hq =>
    ⟨app_add_duplicate_eq u s q hq, ems_add_duplicate_eq u s q hq⟩, ?_, ?_⟩
  · exact app_add_duplicate_eq w' _ r' hdup
  · rw [heq]
    simp only [load_data_stored, List.filter_append]
    have h1 : (load_data fs).filter (fun employee => employee.id == r.id) = [] := by
      rw [List.filter_eq_nil_iff]
      intro a ha
      simpa using List.any_eq_false.mp hfresh a ha
    simp [h1]

/-- Witness for C1 at a concrete input: adding id E1 succeeds, and a
second add with id E1 is rejected with the duplicate message. -/
theorem add_duplicate_id_rejected_witness :
    (app_add_employee true (.stored [])
        ⟨.jstr "E1", .jstr "A", .jstr "Eng", .jnum 50000⟩).1.1 = true ∧
    (app_add_employee true
        (app_add_employee true (.stored [])
          ⟨.jstr "E1", .jstr "A", .jstr "Eng", .jnum 50000⟩).2
        ⟨.jstr "E1", .jstr "B", .jstr "HR", .jnum 1⟩).1 =
      (false, "Employee ID already exists") :=
  ⟨by decide,
   by
     have h := add_duplicate_id_rejected true true (.stored [])
       ⟨.jstr "E1", .jstr "A", .jstr "Eng", .jnum 50000⟩
       ⟨.jstr "E1", .jstr "B", .jstr "HR", .jnum 1⟩ (by decide) rfl
     rw [h.2.1]⟩

/-- C2: after a successful Add of a record with a fresh id, a search for
that id returns the record just added. -/
theorem add_then_find_roundtrip (w : Bool) (fs : FileState) (r : Rec)
    (hfresh : (load_data fs).any (fun employee => employee.id == r.id) = false)
    (hsucc : (app_add_employee w fs r).1.1 = true) :
    (search_employee (app_add_employee w fs r).2 r.id).1 = some r := by
  obtain ⟨hw, -, heq⟩ := app_add_success_eq w fs r hsucc
  rw [heq]
  simp only [search_employee, load_data_stored]
  rw [List.find?_append]
  have h1 : (load_data fs).find? (fun employee => employee.id == r.id) = none := by
    rw [List.find?_eq_none]
    intro a ha
    simpa using List.any_eq_false.mp hfresh a ha
  simp [h1]

/-- Witness for C2 at a concrete input. -/
theorem add_then_find_roundtrip_witness :
    (load_data (.stored [])).any
        (fun employee => employee.id == JVal.jstr "E1") = false ∧
    (app_add_employee true (.stored [])
        ⟨.jstr "E1", .jstr "A", .jstr "Eng", .jnum 50000⟩).1.1 = true ∧
    (search_employee
        (app_add_employee true (.stored [])
          ⟨.jstr "E1", .jstr "A", .jstr "Eng", .jnum 50000⟩).2
        (JVal.jstr "E1")).1 =
      some ⟨.jstr "E1", .jstr "A", .jstr "Eng", .jnum 50000⟩ :=
  ⟨by decide, by decide,
   add_then_find_roundtrip true (.stored [])
     ⟨.jstr "E1", .jstr "A", .jstr "Eng", .jnum 50000⟩ (by decide) (by decide)⟩

/-- C5: the failure cases of `_load_data` are masked: whenever the try
body raises (missing file or malformed JSON), `_load_data` returns the
empty list, so a missing or corrupt store is indistinguishable from an
empty one. -/
theorem load_masks_failures (fs : FileState) :
    (∀ e : LoadErr, load_data_try fs = .error e → load_data fs = []) ∧
    load_data .missing = [] ∧
    load_data .corrupt = [] ∧
    load_data .missing = load_data (.stored []) ∧
    load_data .corrupt = load_data (.stored []) := by
  refine ⟨?_, rfl, rfl, rfl, rfl⟩
  intro e he
  unfold load_data
  rw [he]

/-- Witness for C5 at a concrete input: a corrupt file raises a JSON
decode error in the try body, and `_load_data` returns the empty
list. -/
theorem load_masks_failures_witness :
    load_data_try .corrupt = .error .jsonDecode ∧ load_data .corrupt = [] :=
  ⟨rfl, (load_masks_failures .corrupt).1 .jsonDecode rfl⟩

/-- C6 counterexample: the interactive-path `add_employee` does not
return a `(flag, message)` pair; at a concrete input its return value
is a bare boolean. -/
theorem ems_add_ret_not_pair_cex :
    (ems_add_ret true (.stored [])
      ⟨.jstr "E1", .jstr "A", .jstr "Eng", .jnum 50000⟩).isPair = false := rfl

/-- C6 (amended): the HTTP-backed path's `add_employee` always returns a
`(success flag, message)` pair, while the interactive path's
`add_employee` always returns a bare boolean flag. -/
theorem add_return_shapes (w : Bool) (fs : FileState) (e : Rec) :
    app_add_ret w fs e =
      PyRet.pair (app_add_employee w fs e).1.1 (app_add_employee w fs e).1.2 ∧
    (app_add_ret w fs e).isPair = true ∧
    ems_add_ret w fs e = PyRet.flag (ems_add_employee w fs e).1 ∧
    (ems_add_ret w fs e).isPair = false :=
  ⟨rfl, rfl, rfl, rfl⟩

/-- C7 counterexample: at a concrete one-record store content, the
interactive path's serialization is not the compact rendering the spec
describes. -/
theorem ems_save_not_compact_cex :
    ems_save_serialized [⟨.jstr "E1", .jstr "A", .jstr "Eng", .jnum 50000⟩] ≠
      spec_compact_serialized [⟨.jstr "E1", .jstr "A", .jstr "Eng", .jnum 50000⟩] := by
  decide

/-- C7 (amended): both `_save_data` implementations serialize with
4-space indentation, and their outputs are identical (hence mutually
readable). -/
theorem save_serialization_pretty (data : List Rec) :
    app_save_serialized data = json_dumps data (some 4) ∧
    ems_save_serialized data = json_dumps data (some 4) ∧
    ems_save_serialized data = app_save_serialized data :=
  ⟨rfl, rfl, rfl⟩

/-- C9: initializing against a missing file creates it containing an
empty array and listing right after returns the empty sequence; against
any existing file (well-formed or not) initialization changes
nothing. -/
theorem initialize_ensures_file (fs : FileState) (h : fs ≠ .missing) :
    initStore .missing = .stored [] ∧
    (view_all_employees (initStore .missing)).1 = [] ∧
    initStore fs = fs := by
  refine ⟨rfl, rfl, ?_⟩
  cases fs with
  | missing => exact absurd rfl h
  | corrupt => rfl
  | stored l => rfl

/-- Witness for C9 at a concrete input: an existing corrupt file is left
untouched by initialization. -/
theorem initialize_ensures_file_witness :
    FileState.corrupt ≠ FileState.missing ∧ initStore .corrupt = .corrupt :=
  ⟨by decide, (initialize_ensures_file .corrupt (by decide)).2.2⟩

/-- C10: the read operations return the file state unchanged: listing
and searching perform no write. -/
theorem read_ops_preserve_store (fs : FileState) (emp_id : JVal) :
    (view_all_employees fs).2 = fs ∧ (search_employee fs emp_id).2 = fs :=
  ⟨rfl, rfl⟩

/-- If the ids already stored together with the ids still to be added
are pairwise distinct, running the adds succeeds at every step and
appends the records in order. -/
theorem runAdds_stored (rs : List Rec) :
    ∀ l : List Rec, ((l ++ rs).map Rec.id).Nodup →
      runAdds (.stored l) rs = (List.replicate rs.length true, .stored (l ++ rs)) := by
  induction rs with
  | nil =>
    intro l h
    simp [runAdds]
  | cons r rs ih =>
    intro l h
    have hfresh : l.any (fun employee => employee.id == r.id) = false := by
      rw [List.any_eq_false]
      intro x hx
      simp only [beq_iff_eq]
      intro hxr
      have hmap : ((l.map Rec.id) ++ (r.id :: rs.map Rec.id)).Nodup := by
        simpa [List.map_append] using h
      have hdisj := (List.nodup_append.mp hmap).2.2
      exact hdisj (List.mem_map_of_mem Rec.id hx) (by simp [hxr])
    have hstep : app_add_employee true (.stored l) r =
        ((true, "Employee added successfully"), .stored (l ++ [r])) := by
      simp only [app_add_employee, load_data_stored, hfresh]
      simp [save_data]
    have h2 : (((l ++ [r]) ++ rs).map Rec.id).Nodup := by
      simpa [List.append_assoc] using h
    have hrest := ih (l ++ [r]) h2
    simp [runAdds, hstep, hrest, List.append_assoc, List.replicate_succ]

/-- C3: starting from the empty store, N adds of records with pairwise
distinct ids all succeed, and listing afterwards returns exactly those
records in the order added; moreover every successful add appends its
record at the end of the store, reordering nothing. -/
theorem list_after_distinct_adds (rs : List Rec)
    (h : (rs.map Rec.id).Nodup) :
    runAdds (.stored []) rs = (List.replicate rs.length true, .stored rs) ∧
    (view_all_employees (runAdds (.stored []) rs).2).1 = rs ∧
    (∀ (u : Bool) (s : FileState) (q : Rec),
        (app_add_employee u s q).1.1 = true →
          load_data (app_add_employee u s q).2 = load_data s ++ [q]) := by
  have h0 := runAdds_stored rs [] (by simpa using h)
  refine ⟨by simpa using h0, ?_, ?_⟩
  · rw [show (runAdds (.stored []) rs).2 = .stored rs by simp [h0]]
    rfl
  · intro u s q hq
    obtain ⟨-, -, heq⟩ := app_add_success_eq u s q hq
    rw [heq, load_data_stored]

/-- Witness for C3 at a concrete input: two records with distinct ids,
added in order, are listed in that order. -/
theorem list_after_distinct_adds_witness :
    (([⟨.jstr "E1", .jstr "A", .jstr "Eng", .jnum 50000⟩,
       ⟨.jstr "E2", .jstr "B", .jstr "HR", .jnum 60000⟩] : List Rec).map Rec.id).Nodup ∧
    (view_all_employees (runAdds (.stored [])
        [⟨.jstr "E1", .jstr "A", .jstr "Eng", .jnum 50000⟩,
         ⟨.jstr "E2", .jstr "B", .jstr "HR", .jnum 60000⟩]).2).1 =
      [⟨.jstr "E1", .jstr "A", .jstr "Eng", .jnum 50000⟩,
       ⟨.jstr "E2", .jstr "B", .jstr "HR", .jnum 60000⟩] :=
  ⟨by decide, (list_after_distinct_adds _ (by decide)).2.1⟩

/-- The store invariant of spec §3: at most one record per id, i.e. the
ids of the stored records are pairwise distinct. -/
def storeIdsNodup (fs : FileState) : Prop :=
  ((load_data fs).map Rec.id).Nodup

instance (fs : FileState) : Decidable (storeIdsNodup fs) :=
  List.nodupDecidable _

/-- Appending a record whose id is fresh preserves distinctness of the
stored ids. -/
theorem storeIdsNodup_append (fs : FileState) (r : Rec)
    (h : storeIdsNodup fs)
    (hfresh : (load_data fs).any (fun employee => employee.id == r.id) = false) :
    ((load_data fs ++ [r]).map Rec.id).Nodup := by
  rw [List.map_append]
  refine List.Nodup.append h (List.nodup_singleton _) ?_
  intro a ha hb
  obtain ⟨x, hx, rfl⟩ := List.mem_map.mp ha
  have hb' : x.id = r.id := by simpa using hb
  have hne := List.any_eq_false.mp hfresh x hx
  simp [hb'] at hne

/-- C4: the at-most-one-record-per-id invariant is preserved by every
operation: initialization, add (both paths), search and listing. -/
theorem unique_id_invariant (fs : FileState) (h : storeIdsNodup fs) :
    storeIdsNodup (initStore fs) ∧
    (∀ (w : Bool) (r : Rec), storeIdsNodup (app_add_employee w fs r).2) ∧
    (∀ (w : Bool) (r : Rec), storeIdsNodup (ems_add_employee w fs r).2) ∧
    (∀ emp_id : JVal, storeIdsNodup (search_employee fs emp_id).2) ∧
    storeIdsNodup (view_all_employees fs).2 := by
  refine ⟨?_, ?_, ?_, fun _ => h, h⟩
  · cases fs with
    | missing => simp [initStore, storeIdsNodup, load_data_stored]
    | corrupt => exact h
    | stored l => exact h
  · intro w r
    by_cases hd : (load_data fs).any (fun employee => employee.id == r.id) = true
    · rw [app_add_duplicate_eq w fs r hd]
      exact h
    · simp only [Bool.not_eq_true] at hd
      cases w with
      | false =>
        have hfs : app_add_employee false fs r = ((false, "Error saving employee"), fs) := by
          simp [app_add_employee, hd, save_data]
        rw [hfs]
        exact h
      | true =>
        have hfs : app_add_employee true fs r =
            ((true, "Employee added successfully"), .stored (load_data fs ++ [r])) := by
          simp [app_add_employee, hd, save_data]
        rw [hfs]
        exact storeIdsNodup_append fs r h hd
  · intro w r
    by_cases hd : (load_data fs).any (fun employee => employee.id == r.id) = true
    · rw [ems_add_duplicate_eq w fs r hd]
      exact h
    · simp only [Bool.not_eq_true] at hd
      cases w with
      | false =>
        have hfs : ems_add_employee false fs r = (false, fs) := by
          simp [ems_add_employee, hd, save_data]
        rw [hfs]
        exact h
      | true =>
        have hfs : ems_add_employee true fs r = (true, .stored (load_data fs ++ [r])) := by
          simp [ems_add_employee, hd, save_data]
        rw [hfs]
        exact storeIdsNodup_append fs r h hd

/-- Witness for C4 at a concrete input: the empty store satisfies the
invariant and still does after an add. -/
theorem unique_id_invariant_witness :
    storeIdsNodup (FileState.stored []) ∧
    storeIdsNodup (app_add_employee true (.stored [])
      ⟨.jstr "E1", .jstr "A", .jstr "Eng", .jnum 50000⟩).2 :=
  ⟨by decide, (unique_id_invariant (.stored []) (by decide)).2.1 true
    ⟨.jstr "E1", .jstr "A", .jstr "Eng", .jnum 50000⟩⟩

/-- C8: a POST with any required field absent or falsy yields 400 with
an error object and leaves the store untouched; a POST with all four
fields present and truthy, a fresh id, and a succeeding write yields
201. -/
theorem post_validation (w : Bool) (fs : FileState) (body : PostBody) :
    ((fieldOk body.id = false ∨ fieldOk body.name = false ∨
      fieldOk body.department = false ∨ fieldOk body.salary = false) →
      (post_add_employee w fs body).1.status = 400 ∧
      (post_add_employee w fs body).1.isError = true ∧
      (post_add_employee w fs body).2 = fs) ∧
    (fieldOk body.id = true → fieldOk body.name = true →
      fieldOk body.department = true → fieldOk body.salary = true →
      (load_data fs).any
        (fun employee => employee.id == body.id.getD .jnull) = false →
      w = true →
      (post_add_employee w fs body).1.status = 201) := by
  constructor
  · intro hbad
    by_cases h1 : fieldOk body.id
    · by_cases h2 : fieldOk body.name
      · by_cases h3 : fieldOk body.department
        · by_cases h4 : fieldOk body.salary
          · exfalso
            rcases hbad with hb | hb | hb | hb <;> simp_all
          · simp [post_add_employee, h1, h2, h3, h4, ApiResp.status, ApiResp.isError]
        · simp [post_add_employee, h1, h2, h3, ApiResp.status, ApiResp.isError]
      · simp [post_add_employee, h1, h2, ApiResp.status, ApiResp.isError]
    · simp [post_add_employee, h1, ApiResp.status, ApiResp.isError]
  · intro h1 h2 h3 h4 hfresh hw
    subst hw
    have hadd : app_add_employee true fs
        ⟨body.id.getD .jnull, body.name.getD .jnull,
         body.department.getD .jnull, body.salary.getD .jnull⟩ =
        ((true, "Employee added successfully"),
          .stored (load_data fs ++
            [⟨body.id.getD .jnull, body.name.getD .jnull,
              body.department.getD .jnull, body.salary.getD .jnull⟩])) := by
      simp [app_add_employee, hfresh, save_data]
    simp [post_add_employee, h1, h2, h3, h4, hadd, ApiResp.status]

/-- Witness for C8 at concrete inputs: a body missing its salary gets
400 and leaves the empty store untouched; a complete body with a fresh
id gets 201. -/
theorem post_validation_witness :
    (post_add_employee true (.stored [])
        ⟨some (.jstr "E1"), some (.jstr "A"), some (.jstr "Eng"), none⟩).1.status = 400 ∧
    (post_add_employee true (.stored [])
        ⟨some (.jstr "E1"), some (.jstr "A"), some (.jstr "Eng"), none⟩).2 = .stored [] ∧
    (post_add_employee true (.stored [])
        ⟨some (.jstr "E1"), some (.jstr "A"), some (.jstr "Eng"),
         some (.jnum 50000)⟩).1.status = 201 := by
  refine ⟨?_, ?_, ?_⟩
  · exact ((post_validation true (.stored []) _).1
      (Or.inr (Or.inr (Or.inr (by decide))))).1
  · exact ((post_validation true (.stored []) _).1
      (Or.inr (Or.inr (Or.inr (by decide))))).2.2
  · exact (post_validation true (.stored []) _).2
      (by decide) (by decide) (by decide) (by decide) (by decide) rfl
